import Mathlib

/-!
Shallow embedding of the Course/Student FastAPI service
(`src/main.py`, `src/models/student.py`, `src/models/course.py`).

Modelling conventions:
- `UUID` values are modelled as `Nat` (only identity/equality of identifiers
  matters to the service logic).
- UTC timestamps are modelled as `Nat` (only equality/ordering matters);
  handlers that call `datetime.utcnow()` take the current time as an
  explicit `now` parameter.
- The two global dicts `students` and `courses` are modelled as association
  lists kept in Python-dict insertion order: assignment to an existing key
  replaces the value in place, assignment to a fresh key appends, and
  `list(d.values())` is the list of values in that order.
- Handlers raising `HTTPException` (or pydantic raising inside a handler) are
  modelled as returning `Except.error` together with the store as it stands
  at the moment of the raise, so the returned store is the post-state of the
  request.
- Pydantic distinguishes an *unset* field of an update payload from a field
  explicitly set to `null`: an update field of Python type `Optional[T]` is
  modelled as `Option (Option T)` — `none` = unset (absent from
  `model_dump(exclude_unset=True)`), `some none` = explicitly `null`,
  `some (some v)` = set to value `v`.
-/

/-- Errors a request can end in.  `notFound` is HTTP 404, `conflict` is the
HTTP 400 raised on duplicate create, `validationError` is pydantic rejecting
a record constructed inside a handler, and `attributeError` is Python's
`AttributeError` for reading a field a pydantic model does not declare. -/
inductive ApiError where
  | notFound
  | conflict
  | validationError
  | attributeError
deriving Repr, DecidableEq

/-- `models/student.py`, `StudentBase`: fields `id` (UUID, with a
server-side default), `name`, `student_id`, `email`.  Note that `StudentBase`
*does* declare `id`. -/
structure StudentBase where
  id : Nat
  name : String
  student_id : String
  email : String
deriving Repr, DecidableEq

/-- `models/student.py`, `StudentCreate(StudentBase)`: adds no fields, so the
create payload carries the same fields as `StudentBase` (in particular an
`id`, defaulted by the validation layer to a fresh UUID when the client
omits it). -/
abbrev StudentCreate := StudentBase

/-- `models/student.py`, `StudentUpdate(BaseModel)`: only `name` and `email`,
both `Optional` and defaulted to `None`.  Outer `Option` = set/unset, inner
`Option` = the (nullable) value. -/
structure StudentUpdate where
  name : Option (Option String)
  email : Option (Option String)
deriving Repr, DecidableEq

/-- `models/student.py`, `StudentRead(StudentBase)`: adds `created_at` and
`updated_at`. -/
structure StudentRead where
  id : Nat
  name : String
  student_id : String
  email : String
  created_at : Nat
  updated_at : Nat
deriving Repr, DecidableEq

/-- `models/course.py`, `CourseBase`: fields `name`, `code`, `professor`,
`credits`, `enrolled_students`.  Unlike `StudentBase`, `CourseBase` declares
*no* `id` field. -/
structure CourseBase where
  name : String
  code : String
  professor : String
  credits : Int
  enrolled_students : List StudentBase
deriving Repr, DecidableEq

/-- `models/course.py`, `CourseCreate(CourseBase)`: adds no fields; in
particular a `CourseCreate` instance has no `id` attribute. -/
abbrev CourseCreate := CourseBase

/-- `models/course.py`, `CourseUpdate(BaseModel)`: only `name`, `professor`
and `enrolled_students`, all `Optional` defaulted to `None`. -/
structure CourseUpdate where
  name : Option (Option String)
  professor : Option (Option String)
  enrolled_students : Option (Option (List StudentBase))
deriving Repr, DecidableEq

/-- `models/course.py`, `CourseRead(CourseBase)`: adds `id`, `created_at`,
`updated_at`. -/
structure CourseRead where
  id : Nat
  name : String
  code : String
  professor : String
  credits : Int
  enrolled_students : List StudentBase
  created_at : Nat
  updated_at : Nat
deriving Repr, DecidableEq

/-! ### Python dicts as insertion-ordered association lists -/

/-- `d[k]` / `k in d`: first (unique) entry with key `k`. -/
def dictLookup {α : Type} (st : List (Nat × α)) (k : Nat) : Option α :=
  match st with
  | [] => none
  | (k', v) :: rest => if k' = k then some v else dictLookup rest k

/-- `k in d`. -/
def dictContains {α : Type} (st : List (Nat × α)) (k : Nat) : Bool :=
  (dictLookup st k).isSome

/-- `d[k] = v`: replace in place when the key is present, append otherwise
(Python dicts keep insertion order). -/
def dictSet {α : Type} (st : List (Nat × α)) (k : Nat) (v : α) : List (Nat × α) :=
  match st with
  | [] => [(k, v)]
  | (k', v') :: rest => if k' = k then (k, v) :: rest else (k', v') :: dictSet rest k v

/-- `del d[k]`. -/
def dictErase {α : Type} (st : List (Nat × α)) (k : Nat) : List (Nat × α) :=
  match st with
  | [] => []
  | (k', v') :: rest => if k' = k then rest else (k', v') :: dictErase rest k

/-- `list(d.values())`. -/
def dictValues {α : Type} (st : List (Nat × α)) : List α :=
  st.map (fun p => p.2)

abbrev StudentStore := List (Nat × StudentRead)
abbrev CourseStore := List (Nat × CourseRead)

/-! ### Student endpoints (`src/main.py` lines 57-100) -/

/-- `POST /students` (`create_student`, main.py:57-64): reject with 400 when
`student.id` is already a key of `students`; otherwise build
`StudentRead(**student.model_dump())` — the dump carries `id`, `name`,
`student_id`, `email`, so `created_at`/`updated_at` come from their
`default_factory=datetime.utcnow` — store it under its `id` and return it. -/
def create_student (student : StudentCreate) (now : Nat) (students : StudentStore) :
    Except ApiError StudentRead × StudentStore :=
  if dictContains students student.id then
    (Except.error ApiError.conflict, students)
  else
    let student_read : StudentRead :=
      { id := student.id, name := student.name, student_id := student.student_id,
        email := student.email, created_at := now, updated_at := now }
    (Except.ok student_read, dictSet students student_read.id student_read)

/-- `GET /students` (`list_students`, main.py:66-78): start from all stored
values, then narrow by each filter that was supplied. -/
def list_students (name : Option String) (student_id : Option String)
    (students : StudentStore) : List StudentRead :=
  let results := dictValues students
  let results := match name with
    | none => results
    | some n => results.filter (fun s => s.name == n)
  let results := match student_id with
    | none => results
    | some i => results.filter (fun s => s.student_id == i)
  results

/-- `GET /students/{student_id}` (`get_student`, main.py:80-84). -/
def get_student (student_id : Nat) (students : StudentStore) :
    Except ApiError StudentRead :=
  match dictLookup students student_id with
  | none => Except.error ApiError.notFound
  | some s => Except.ok s

/-- Merge one field of a stored record's `model_dump()` with the
`model_dump(exclude_unset=True)` of the update payload: an unset update field
leaves the stored (non-null) value; a set field overwrites it, possibly with
`null`. -/
def mergeField {α : Type} (storedVal : α) (upd : Option (Option α)) : Option α :=
  match upd with
  | none => some storedVal
  | some v => v

/-- `PATCH /students/{student_id}` (`update_student`, main.py:86-93): 404 when
absent; otherwise `stored = students[id].model_dump()`,
`stored.update(update.model_dump(exclude_unset=True))`, re-validate with
`StudentRead(**stored)` (pydantic rejects a `null` for the non-nullable
`name`/`email`), store and return.  The dump's `id`, `student_id`,
`created_at` and `updated_at` keys are never overwritten — in particular
`updated_at` keeps its stored value; no `datetime.utcnow()` is called here. -/
def update_student (student_id : Nat) (update : StudentUpdate)
    (students : StudentStore) : Except ApiError StudentRead × StudentStore :=
  match dictLookup students student_id with
  | none => (Except.error ApiError.notFound, students)
  | some stored =>
    match mergeField stored.name update.name, mergeField stored.email update.email with
    | some n, some e =>
      let r : StudentRead := { stored with name := n, email := e }
      (Except.ok r, dictSet students student_id r)
    | _, _ => (Except.error ApiError.validationError, students)

/-- `DELETE /students/{student_id}` (`delete_student`, main.py:95-100): 404
when absent, otherwise remove and answer 204. -/
def delete_student (student_id : Nat) (students : StudentStore) :
    Except ApiError Unit × StudentStore :=
  if dictContains students student_id then
    (Except.ok (), dictErase students student_id)
  else
    (Except.error ApiError.notFound, students)

/-! ### Course endpoints (`src/main.py` lines 105-151) -/

/-- `POST /courses` (`create_course`, main.py:105-112): the handler's first
statement reads `course.id`, but `CourseCreate` (= `CourseBase`, see
`models/course.py`) declares only `name`, `code`, `professor`, `credits` and
`enrolled_students` — no `id`.  Pydantic models raise `AttributeError` on
access to an undeclared attribute, so the handler aborts before the conflict
check can be evaluated and before any mutation of `courses`. -/
def create_course (course : CourseCreate) (courses : CourseStore) :
    Except ApiError CourseRead × CourseStore :=
  (Except.error ApiError.attributeError, courses)

/-- `GET /courses` (`list_courses`, main.py:114-129). -/
def list_courses (name : Option String) (professor : Option String)
    (credits : Option Int) (courses : CourseStore) : List CourseRead :=
  let results := dictValues courses
  let results := match name with
    | none => results
    | some n => results.filter (fun c => c.name == n)
  let results := match professor with
    | none => results
    | some p => results.filter (fun c => c.professor == p)
  let results := match credits with
    | none => results
    | some cr => results.filter (fun c => c.credits == cr)
  results

/-- `GET /courses/{course_id}` (`get_course`, main.py:131-135). -/
def get_course (course_id : Nat) (courses : CourseStore) :
    Except ApiError CourseRead :=
  match dictLookup courses course_id with
  | none => Except.error ApiError.notFound
  | some c => Except.ok c

/-- `PATCH /courses/{course_id}` (`update_course`, main.py:137-144): same
shape as `update_student`; the dump's `id`, `code`, `credits`, `created_at`
and `updated_at` keys are never overwritten ( `CourseUpdate` has no such
fields). -/
def update_course (course_id : Nat) (update : CourseUpdate)
    (courses : CourseStore) : Except ApiError CourseRead × CourseStore :=
  match dictLookup courses course_id with
  | none => (Except.error ApiError.notFound, courses)
  | some stored =>
    match mergeField stored.name update.name,
          mergeField stored.professor update.professor,
          mergeField stored.enrolled_students update.enrolled_students with
    | some n, some p, some es =>
      let r : CourseRead := { stored with name := n, professor := p, enrolled_students := es }
      (Except.ok r, dictSet courses course_id r)
    | _, _, _ => (Except.error ApiError.validationError, courses)

/-- `DELETE /courses/{course_id}` (`delete_course`, main.py:146-151). -/
def delete_course (course_id : Nat) (courses : CourseStore) :
    Except ApiError Unit × CourseStore :=
  if dictContains courses course_id then
    (Except.ok (), dictErase courses course_id)
  else
    (Except.error ApiError.notFound, courses)

/-! ### Whole-application state

The two stores are module-level globals of `main.py`; a handler for one
resource type reads and writes only its own store.  `AppState` packages both
so that cross-store frame properties can be stated. -/

structure AppState where
  students : StudentStore
  courses : CourseStore
deriving Repr, DecidableEq

/-- `update_student` acting on the full application state: it rebinds the
`students` global and leaves the `courses` global untouched (the handler body
never mentions `courses`). -/
def app_update_student (student_id : Nat) (update : StudentUpdate)
    (st : AppState) : Except ApiError StudentRead × AppState :=
  let res := update_student student_id update st.students
  (res.1, { st with students := res.2 })

/-! ### Spec-side filter predicate and concrete fixtures -/

/-- Spec-side reading of one optional exact-match filter: an absent parameter
imposes no constraint, a supplied one requires equality. -/
def optMatch {α : Type} [BEq α] (filt : Option α) (fieldVal : α) : Bool :=
  match filt with
  | none => true
  | some v => fieldVal == v

/-- Spec-side conjunctive student filter (`name` AND `student_id`). -/
def studentMatches (name : Option String) (student_id : Option String)
    (s : StudentRead) : Bool :=
  optMatch name s.name && optMatch student_id s.student_id

/-- Spec-side conjunctive course filter (`name` AND `professor` AND `credits`). -/
def courseMatches (name : Option String) (professor : Option String)
    (credits : Option Int) (c : CourseRead) : Bool :=
  optMatch name c.name && (optMatch professor c.professor && optMatch credits c.credits)

def aliceBase : StudentBase :=
  { id := 10, name := "Alice", student_id := "as1", email := "a@x.edu" }

def aliceRead : StudentRead :=
  { id := 10, name := "Alice", student_id := "as1", email := "a@x.edu",
    created_at := 1, updated_at := 1 }

/-- An update payload that sets only `name`. -/
def updName : StudentUpdate := { name := some (some "Alicia"), email := none }

/-- An update payload that sets only `email`. -/
def updEmail : StudentUpdate := { name := none, email := some (some "new@x.edu") }

def cloudCourse : CourseCreate :=
  { name := "Cloud Computing", code := "COMS4135", professor := "Michael Johnson",
    credits := 3, enrolled_students := [] }

def cloudRead : CourseRead :=
  { id := 20, name := "Cloud Computing", code := "COMS4135",
    professor := "Michael Johnson", credits := 3, enrolled_students := [aliceBase],
    created_at := 1, updated_at := 1 }

/-- A course update payload that sets only `name`. -/
def cupdName : CourseUpdate :=
  { name := some (some "Database"), professor := none, enrolled_students := none }

/-! ### Lemmas about the dict operations -/

theorem dictLookup_dictSet_self {α : Type} (st : List (Nat × α)) (k : Nat) (v : α) :
    dictLookup (dictSet st k v) k = some v := by
  induction st with
  | nil => simp [dictSet, dictLookup]
  | cons hd tl ih =>
    obtain ⟨k', v'⟩ := hd
    by_cases h : k' = k
    · simp [dictSet, h, dictLookup]
    · simp [dictSet, h, dictLookup, ih]

theorem dictLookup_eq_none_of_not_mem {α : Type} (st : List (Nat × α)) (k : Nat)
    (h : k ∉ st.map Prod.fst) : dictLookup st k = none := by
  induction st with
  | nil => rfl
  | cons hd tl ih =>
    obtain ⟨k', v'⟩ := hd
    simp only [List.map_cons, List.mem_cons] at h
    push_neg at h
    have hne : ¬ k' = k := fun hh => h.1 hh.symm
    simp [dictLookup, hne, ih h.2]

theorem dictLookup_dictErase_self {α : Type} (st : List (Nat × α)) (k : Nat)
    (hnd : (st.map Prod.fst).Nodup) : dictLookup (dictErase st k) k = none := by
  induction st with
  | nil => rfl
  | cons hd tl ih =>
    obtain ⟨k', v'⟩ := hd
    simp only [List.map_cons, List.nodup_cons] at hnd
    obtain ⟨hnotin, hnd'⟩ := hnd
    by_cases h : k' = k
    · subst h
      simp [dictErase, dictLookup_eq_none_of_not_mem tl k' hnotin]
    · simp [dictErase, h, dictLookup, ih hnd']

/-- Shape of a successful `update_student`: both merged fields validated, the
returned record is the stored one with only `name`/`email` replaced, and the
store holds it under the path id. -/
theorem update_student_ok_cases
    (sid : Nat) (upd : StudentUpdate) (st : StudentStore)
    (stored r : StudentRead) (st' : StudentStore)
    (hfound : dictLookup st sid = some stored)
    (hok : update_student sid upd st = (Except.ok r, st')) :
    mergeField stored.name upd.name = some r.name ∧
    mergeField stored.email upd.email = some r.email ∧
    r = { stored with name := r.name, email := r.email } ∧
    st' = dictSet st sid r := by
  unfold update_student at hok
  split at hok
  next heq => rw [hfound] at heq; simp at heq
  next stored' heq =>
    rw [hfound] at heq
    injection heq with heq
    subst heq
    split at hok
    next n e hn he =>
      simp only [Prod.mk.injEq, Except.ok.injEq] at hok
      obtain ⟨h1, h2⟩ := hok
      subst h1
      exact ⟨hn, he, rfl, h2.symm⟩
    next hne => simp at hok

/-- Shape of a successful `update_course`. -/
theorem update_course_ok_cases
    (cid : Nat) (upd : CourseUpdate) (st : CourseStore)
    (stored r : CourseRead) (st' : CourseStore)
    (hfound : dictLookup st cid = some stored)
    (hok : update_course cid upd st = (Except.ok r, st')) :
    mergeField stored.name upd.name = some r.name ∧
    mergeField stored.professor upd.professor = some r.professor ∧
    mergeField stored.enrolled_students upd.enrolled_students = some r.enrolled_students ∧
    r = { stored with name := r.name, professor := r.professor,
                      enrolled_students := r.enrolled_students } ∧
    st' = dictSet st cid r := by
  unfold update_course at hok
  split at hok
  next heq => rw [hfound] at heq; simp at heq
  next stored' heq =>
    rw [hfound] at heq
    injection heq with heq
    subst heq
    split at hok
    next n p es hn hp he =>
      simp only [Prod.mk.injEq, Except.ok.injEq] at hok
      obtain ⟨h1, h2⟩ := hok
      subst h1
      exact ⟨hn, hp, he, rfl, h2.symm⟩
    next hne => simp at hok

/-- One `if param is not None: results = [r for r in results if ...]` step
equals filtering by `optMatch`. -/
theorem filterStep {α β : Type} [BEq β] (filt : Option β) (get : α → β)
    (l : List α) :
    (match filt with
     | none => l
     | some v => l.filter (fun a => get a == v)) =
      l.filter (fun a => optMatch filt (get a)) := by
  cases filt with
  | none => simp [optMatch]
  | some v => rfl

/-- `create_student` when the id is already a key: conflict, store untouched. -/
theorem create_student_eq_of_contains (p : StudentCreate) (now : Nat)
    (st : StudentStore) (h : dictContains st p.id = true) :
    create_student p now st = (Except.error ApiError.conflict, st) := by
  unfold create_student
  rw [h]
  rfl

/-- `create_student` when the id is fresh: build the read record and append it. -/
theorem create_student_eq_of_fresh (p : StudentCreate) (now : Nat)
    (st : StudentStore) (h : dictContains st p.id = false) :
    create_student p now st =
      (Except.ok { id := p.id, name := p.name, student_id := p.student_id,
                   email := p.email, created_at := now, updated_at := now },
       dictSet st p.id
         { id := p.id, name := p.name, student_id := p.student_id,
           email := p.email, created_at := now, updated_at := now }) := by
  unfold create_student
  rw [h]
  rfl

/-- `update_student` on a missing id: 404, store untouched. -/
theorem update_student_eq_of_missing (sid : Nat) (upd : StudentUpdate)
    (st : StudentStore) (h : dictLookup st sid = none) :
    update_student sid upd st = (Except.error ApiError.notFound, st) := by
  unfold update_student
  rw [h]

/-- `update_student` on a found record: the inner merge-and-revalidate step. -/
theorem update_student_eq_of_found (sid : Nat) (upd : StudentUpdate)
    (st : StudentStore) (stored : StudentRead)
    (h : dictLookup st sid = some stored) :
    update_student sid upd st =
      (match mergeField stored.name upd.name, mergeField stored.email upd.email with
       | some n, some e =>
         let r : StudentRead := { stored with name := n, email := e }
         (Except.ok r, dictSet st sid r)
       | _, _ => (Except.error ApiError.validationError, st)) := by
  unfold update_student
  rw [h]

/-- `update_course` on a missing id: 404, store untouched. -/
theorem update_course_eq_of_missing (cid : Nat) (upd : CourseUpdate)
    (st : CourseStore) (h : dictLookup st cid = none) :
    update_course cid upd st = (Except.error ApiError.notFound, st) := by
  unfold update_course
  rw [h]

/-- `update_course` on a found record: the inner merge-and-revalidate step. -/
theorem update_course_eq_of_found (cid : Nat) (upd : CourseUpdate)
    (st : CourseStore) (stored : CourseRead)
    (h : dictLookup st cid = some stored) :
    update_course cid upd st =
      (match mergeField stored.name upd.name,
             mergeField stored.professor upd.professor,
             mergeField stored.enrolled_students upd.enrolled_students with
       | some n, some p, some es =>
         let r : CourseRead :=
           { stored with name := n, professor := p, enrolled_students := es }
         (Except.ok r, dictSet st cid r)
       | _, _, _ => (Except.error ApiError.validationError, st)) := by
  unfold update_course
  rw [h]

/-- `delete_student` on a present id: remove it, answer 204. -/
theorem delete_student_eq_of_contains (sid : Nat) (st : StudentStore)
    (h : dictContains st sid = true) :
    delete_student sid st = (Except.ok (), dictErase st sid) := by
  unfold delete_student
  rw [h]
  rfl

/-- `delete_student` on a missing id: 404, store untouched. -/
theorem delete_student_eq_of_missing (sid : Nat) (st : StudentStore)
    (h : dictContains st sid = false) :
    delete_student sid st = (Except.error ApiError.notFound, st) := by
  unfold delete_student
  rw [h]
  rfl

/-- Claim C1 (code bug in the source).  The claim says POST /courses succeeds
with 201 for a fresh id and that the conflict check on the incoming
`CourseCreate` payload is well-defined, the payload having an `id` attribute.
In the code, `create_course` reads `course.id` (main.py:107) while
`CourseCreate` declares no `id` field, so Python raises `AttributeError` on
every payload, whatever the store: this theorem evaluates the embedded
handler and shows that every call fails with `attributeError` and leaves the
store unchanged, never reaching a 201. -/
theorem claim1_create_course_always_fails (course : CourseCreate)
    (cs : CourseStore) :
    create_course course cs = (Except.error ApiError.attributeError, cs) := rfl

/-- Claim C2 (code bug in the source).  The claim says a successful update
refreshes `updated_at`.  In `update_student` (main.py:86-93) the stored
record's dump — `updated_at` included — is only overwritten by the keys of
`update.model_dump(exclude_unset=True)`, and `StudentUpdate` has no
`updated_at` key, nor does the handler call `datetime.utcnow()`: the
resulting record keeps the previous `updated_at` verbatim. -/
theorem claim2_updated_at_not_refreshed (sid : Nat) (upd : StudentUpdate)
    (st : StudentStore) (stored r : StudentRead) (st' : StudentStore)
    (hfound : dictLookup st sid = some stored)
    (hok : update_student sid upd st = (Except.ok r, st')) :
    r.updated_at = stored.updated_at := by
  obtain ⟨-, -, hr, -⟩ := update_student_ok_cases sid upd st stored r st' hfound hok
  rw [hr]

/-- Witness for C2: patching only `name` of the stored `aliceRead`
(whose `updated_at` is 1) succeeds and returns a record whose `updated_at`
is still `aliceRead.updated_at`. -/
theorem claim2_witness :
    dictLookup [(10, aliceRead)] 10 = some aliceRead ∧
    StudentRead.updated_at
        { id := 10, name := "Alicia", student_id := "as1", email := "a@x.edu",
          created_at := 1, updated_at := 1 } = aliceRead.updated_at :=
  ⟨rfl,
   claim2_updated_at_not_refreshed 10 updName [(10, aliceRead)] aliceRead
     { id := 10, name := "Alicia", student_id := "as1", email := "a@x.edu",
       created_at := 1, updated_at := 1 }
     [(10, { id := 10, name := "Alicia", student_id := "as1", email := "a@x.edu",
             created_at := 1, updated_at := 1 })]
     rfl rfl⟩

/-- Claim C3 (code bug in the source).  The claim says both resource types
follow Variant A (client-supplied id, reject on conflict, insert otherwise).
The student side does: a fresh id is inserted under that id and a duplicate
id fails with `conflict` (HTTP 400) leaving the store unchanged.  The course
side cannot: `create_course` fails with `AttributeError` on every payload
(`CourseCreate` has no `id` field), so the insert half of Variant A never
happens for courses. -/
theorem claim3_variant_a_broken_for_courses :
    create_student aliceBase 1 [] = (Except.ok aliceRead, [(10, aliceRead)]) ∧
    create_student aliceBase 2 [(10, aliceRead)] =
      (Except.error ApiError.conflict, [(10, aliceRead)]) ∧
    create_course cloudCourse [] = (Except.error ApiError.attributeError, []) :=
  ⟨rfl, rfl, rfl⟩

/-- Claim C4 (confirmed).  Partial student update: a successful PATCH leaves
an unset payload field at the stored value, overwrites with a set value, and
stores the resulting record under the path id. -/
theorem claim4_only_set_fields_applied (sid : Nat) (upd : StudentUpdate)
    (st : StudentStore) (stored r : StudentRead) (st' : StudentStore)
    (hfound : dictLookup st sid = some stored)
    (hok : update_student sid upd st = (Except.ok r, st')) :
    (upd.name = none → r.name = stored.name) ∧
    (∀ v, upd.name = some (some v) → r.name = v) ∧
    (upd.email = none → r.email = stored.email) ∧
    (∀ v, upd.email = some (some v) → r.email = v) ∧
    dictLookup st' sid = some r := by
  obtain ⟨hn, he, -, hst⟩ := update_student_ok_cases sid upd st stored r st' hfound hok
  subst hst
  refine ⟨?_, ?_, ?_, ?_, dictLookup_dictSet_self st sid r⟩
  · intro h0
    rw [h0] at hn
    simp [mergeField] at hn
    exact hn.symm
  · intro v hv
    rw [hv] at hn
    simp [mergeField] at hn
    exact hn.symm
  · intro h0
    rw [h0] at he
    simp [mergeField] at he
    exact he.symm
  · intro v hv
    rw [hv] at he
    simp [mergeField] at he
    exact he.symm

/-- Witness for C4: patching `aliceRead` with `updName` (sets only `name` to
"Alicia") yields a record whose `name` is "Alicia", whose `email` is
Alice's prior email, stored under id 10. -/
theorem claim4_witness :
    dictLookup [(10, aliceRead)] 10 = some aliceRead ∧
    StudentRead.name
        { id := 10, name := "Alicia", student_id := "as1", email := "a@x.edu",
          created_at := 1, updated_at := 1 } = "Alicia" ∧
    StudentRead.email
        { id := 10, name := "Alicia", student_id := "as1", email := "a@x.edu",
          created_at := 1, updated_at := 1 } = aliceRead.email := by
  obtain ⟨-, h2, h3, -, -⟩ :=
    claim4_only_set_fields_applied 10 updName [(10, aliceRead)] aliceRead
      { id := 10, name := "Alicia", student_id := "as1", email := "a@x.edu",
        created_at := 1, updated_at := 1 }
      [(10, { id := 10, name := "Alicia", student_id := "as1", email := "a@x.edu",
              created_at := 1, updated_at := 1 })]
      rfl rfl
  exact ⟨rfl, h2 "Alicia" rfl, h3 rfl⟩

/-- Claim C5 (confirmed).  List filtering is conjunctive exact-match: the
sequential narrowing loops of `list_students`/`list_courses` return exactly
the stored records matching every supplied filter (AND), an absent parameter
imposes no constraint, and with no filters every stored record is returned
(an empty result is just the empty list, never an error). -/
theorem list_students_eq_filter_steps (sn si : Option String)
    (sst : StudentStore) :
    list_students sn si sst =
      ((dictValues sst).filter (fun s => optMatch sn s.name)).filter
        (fun s => optMatch si s.student_id) := by
  cases sn <;> cases si <;> simp [list_students, optMatch]

/-- `list_courses` written as three successive `optMatch` filters. -/
theorem list_courses_eq_filter_steps (cn cp : Option String) (ccr : Option Int)
    (cst : CourseStore) :
    list_courses cn cp ccr cst =
      (((dictValues cst).filter (fun c => optMatch cn c.name)).filter
          (fun c => optMatch cp c.professor)).filter
        (fun c => optMatch ccr c.credits) := by
  cases cn <;> cases cp <;> cases ccr <;> simp [list_courses, optMatch]

theorem claim5_filtering_conjunctive (sn si : Option String)
    (sst : StudentStore) (cn cp : Option String) (ccr : Option Int)
    (cst : CourseStore) :
    list_students sn si sst = (dictValues sst).filter (studentMatches sn si) ∧
    list_courses cn cp ccr cst =
      (dictValues cst).filter (courseMatches cn cp ccr) ∧
    list_students none none sst = dictValues sst ∧
    list_courses none none none cst = dictValues cst := by
  refine ⟨?_, ?_, rfl, rfl⟩
  · rw [list_students_eq_filter_steps sn si sst, List.filter_filter]
    unfold studentMatches
    congr 1
    funext s
    exact Bool.and_comm (optMatch si s.student_id) (optMatch sn s.name)
  · rw [list_courses_eq_filter_steps cn cp ccr cst, List.filter_filter,
        List.filter_filter]
    unfold courseMatches
    congr 1
    funext c
    exact (by decide : ∀ a b d : Bool, ((d && b) && a) = (a && (b && d)))
      (optMatch cn c.name) (optMatch cp c.professor) (optMatch ccr c.credits)

/-- Claim C6 (confirmed).  Embedding independence: updating a student (the
handler rebinds only the `students` global) leaves the `courses` store — and
hence every embedded `enrolled_students` snapshot — untouched. -/
theorem claim6_embedding_independence (sid : Nat) (upd : StudentUpdate)
    (st : AppState) (cid : Nat) (c : CourseRead)
    (hc : dictLookup st.courses cid = some c) :
    ((app_update_student sid upd st).2).courses = st.courses ∧
    dictLookup ((app_update_student sid upd st).2).courses cid = some c :=
  ⟨rfl, hc⟩

/-- Witness for C6: after successfully patching student 10's email, course 20
still holds the old embedded snapshot `aliceBase` (with the old email). -/
theorem claim6_witness :
    dictLookup
        ((app_update_student 10 updEmail
            { students := [(10, aliceRead)], courses := [(20, cloudRead)] }).2).courses
        20 = some cloudRead ∧
    cloudRead.enrolled_students = [aliceBase] :=
  ⟨(claim6_embedding_independence 10 updEmail
      { students := [(10, aliceRead)], courses := [(20, cloudRead)] }
      20 cloudRead rfl).2,
   rfl⟩

/-- Claim C7 (confirmed).  Atomicity on failure: whenever a create or update
request ends in an error (conflict, not-found, validation failure, or the
course-create `AttributeError`), the store after the request equals the store
before it. -/
theorem claim7_failed_mutation_is_noop :
    (∀ (p : StudentCreate) (now : Nat) (st : StudentStore) (e : ApiError),
        (create_student p now st).1 = Except.error e →
        (create_student p now st).2 = st) ∧
    (∀ (sid : Nat) (upd : StudentUpdate) (st : StudentStore) (e : ApiError),
        (update_student sid upd st).1 = Except.error e →
        (update_student sid upd st).2 = st) ∧
    (∀ (c : CourseCreate) (st : CourseStore) (e : ApiError),
        (create_course c st).1 = Except.error e → (create_course c st).2 = st) ∧
    (∀ (cid : Nat) (upd : CourseUpdate) (st : CourseStore) (e : ApiError),
        (update_course cid upd st).1 = Except.error e →
        (update_course cid upd st).2 = st) := by
  refine ⟨?_, ?_, ?_, ?_⟩
  · intro p now st e h
    cases hc : dictContains st p.id with
    | true => rw [create_student_eq_of_contains p now st hc]
    | false => rw [create_student_eq_of_fresh p now st hc] at h; simp at h
  · intro sid upd st e h
    cases hl : dictLookup st sid with
    | none => rw [update_student_eq_of_missing sid upd st hl]
    | some stored =>
      rw [update_student_eq_of_found sid upd st stored hl] at h ⊢
      cases hn : mergeField stored.name upd.name with
      | none => cases he : mergeField stored.email upd.email <;> rfl
      | some n =>
        cases he : mergeField stored.email upd.email with
        | none => rfl
        | some e' => rw [hn, he] at h; simp at h
  · intro c st e h
    rfl
  · intro cid upd st e h
    cases hl : dictLookup st cid with
    | none => rw [update_course_eq_of_missing cid upd st hl]
    | some stored =>
      rw [update_course_eq_of_found cid upd st stored hl] at h ⊢
      cases hn : mergeField stored.name upd.name with
      | none =>
        cases hp : mergeField stored.professor upd.professor <;>
          cases he : mergeField stored.enrolled_students upd.enrolled_students <;>
            rfl
      | some n =>
        cases hp : mergeField stored.professor upd.professor with
        | none =>
          cases he : mergeField stored.enrolled_students upd.enrolled_students <;>
            rfl
        | some p' =>
          cases he : mergeField stored.enrolled_students upd.enrolled_students with
          | none => rfl
          | some es => rw [hn, hp, he] at h; simp at h

/-- Witness for C7: a conflicting student create, a not-found student update,
a course create (which always fails), and a not-found course update all leave
their store exactly as it was. -/
theorem claim7_witness :
    (create_student aliceBase 2 [(10, aliceRead)]).2 = [(10, aliceRead)] ∧
    (update_student 99 updName []).2 = ([] : StudentStore) ∧
    (create_course cloudCourse [(20, cloudRead)]).2 = [(20, cloudRead)] ∧
    (update_course 99 cupdName []).2 = ([] : CourseStore) :=
  ⟨claim7_failed_mutation_is_noop.1 aliceBase 2 [(10, aliceRead)]
     ApiError.conflict rfl,
   claim7_failed_mutation_is_noop.2.1 99 updName [] ApiError.notFound rfl,
   claim7_failed_mutation_is_noop.2.2.1 cloudCourse [(20, cloudRead)]
     ApiError.attributeError rfl,
   claim7_failed_mutation_is_noop.2.2.2 99 cupdName [] ApiError.notFound rfl⟩

/-- Claim C8 (confirmed).  Delete semantics and delete-then-get, over any
store whose keys are unique (always true of a Python dict): deleting a
present id removes it and answers 204; deleting an absent id fails with
`notFound` (404) and changes nothing; and a get on a just-deleted id fails
with `notFound`. -/
theorem claim8_delete_then_get (sid : Nat) (st : StudentStore)
    (hnd : (st.map Prod.fst).Nodup) :
    (dictContains st sid = true →
       delete_student sid st = (Except.ok (), dictErase st sid) ∧
       get_student sid (delete_student sid st).2 = Except.error ApiError.notFound) ∧
    (dictContains st sid = false →
       delete_student sid st = (Except.error ApiError.notFound, st)) := by
  constructor
  · intro h
    have hd := delete_student_eq_of_contains sid st h
    refine ⟨hd, ?_⟩
    rw [hd]
    simp [get_student, dictLookup_dictErase_self st sid hnd]
  · intro h
    exact delete_student_eq_of_missing sid st h

/-- Witness for C8: in the one-record store, deleting id 10 succeeds, empties
the store, and the subsequent get answers 404. -/
theorem claim8_witness :
    delete_student 10 [(10, aliceRead)] = (Except.ok (), []) ∧
    get_student 10 (delete_student 10 [(10, aliceRead)]).2 =
      Except.error ApiError.notFound :=
  (claim8_delete_then_get 10 [(10, aliceRead)] (by decide)).1 rfl

/-- Claim C9 (confirmed).  Round-trip: a successful student create followed
by a get on the returned record's `id` yields exactly the created record —
every field equal, `id`, `created_at` and `updated_at` included. -/
theorem claim9_round_trip (p : StudentCreate) (now : Nat) (st : StudentStore)
    (r : StudentRead) (st' : StudentStore)
    (hok : create_student p now st = (Except.ok r, st')) :
    get_student r.id st' = Except.ok r := by
  cases hc : dictContains st p.id with
  | true => rw [create_student_eq_of_contains p now st hc] at hok; simp at hok
  | false =>
    rw [create_student_eq_of_fresh p now st hc] at hok
    simp only [Prod.mk.injEq, Except.ok.injEq] at hok
    obtain ⟨h1, h2⟩ := hok
    subst h1
    subst h2
    simp [get_student, dictLookup_dictSet_self]

/-- Witness for C9: creating Alice in the empty store and getting her id
returns the very record the create returned. -/
theorem claim9_witness :
    create_student aliceBase 1 [] = (Except.ok aliceRead, [(10, aliceRead)]) ∧
    get_student aliceRead.id [(10, aliceRead)] = Except.ok aliceRead :=
  ⟨rfl, claim9_round_trip aliceBase 1 [] aliceRead [(10, aliceRead)] rfl⟩

/-- Claim C10 (confirmed).  The update schemas omit several record fields, so
no successful update can change them: a student update preserves `id`,
`student_id` and `created_at` (`StudentUpdate` has only `name`/`email`); a
course update preserves `id`, `code`, `credits` and `created_at`
(`CourseUpdate` has only `name`/`professor`/`enrolled_students`). -/
theorem claim10_update_cannot_touch_omitted_fields :
    (∀ (sid : Nat) (upd : StudentUpdate) (st : StudentStore)
       (stored r : StudentRead) (st' : StudentStore),
        dictLookup st sid = some stored →
        update_student sid upd st = (Except.ok r, st') →
        r.id = stored.id ∧ r.student_id = stored.student_id ∧
          r.created_at = stored.created_at) ∧
    (∀ (cid : Nat) (upd : CourseUpdate) (st : CourseStore)
       (stored r : CourseRead) (st' : CourseStore),
        dictLookup st cid = some stored →
        update_course cid upd st = (Except.ok r, st') →
        r.id = stored.id ∧ r.code = stored.code ∧ r.credits = stored.credits ∧
          r.created_at = stored.created_at) := by
  constructor
  · intro sid upd st stored r st' hfound hok
    obtain ⟨-, -, hr, -⟩ :=
      update_student_ok_cases sid upd st stored r st' hfound hok
    rw [hr]
    exact ⟨rfl, rfl, rfl⟩
  · intro cid upd st stored r st' hfound hok
    obtain ⟨-, -, -, hr, -⟩ :=
      update_course_ok_cases cid upd st stored r st' hfound hok
    rw [hr]
    exact ⟨rfl, rfl, rfl, rfl⟩

/-- Witness for C10: patching Alice's name keeps `id`/`student_id`/
`created_at`; patching the course name keeps `id`/`code`/`credits`/
`created_at`. -/
theorem claim10_witness :
    (StudentRead.id
         { id := 10, name := "Alicia", student_id := "as1", email := "a@x.edu",
           created_at := 1, updated_at := 1 } = aliceRead.id ∧
       StudentRead.student_id
         { id := 10, name := "Alicia", student_id := "as1", email := "a@x.edu",
           created_at := 1, updated_at := 1 } = aliceRead.student_id ∧
       StudentRead.created_at
         { id := 10, name := "Alicia", student_id := "as1", email := "a@x.edu",
           created_at := 1, updated_at := 1 } = aliceRead.created_at) ∧
    (CourseRead.id
         { id := 20, name := "Database", code := "COMS4135",
           professor := "Michael Johnson", credits := 3,
           enrolled_students := [aliceBase], created_at := 1, updated_at := 1 } =
         cloudRead.id ∧
       CourseRead.code
         { id := 20, name := "Database", code := "COMS4135",
           professor := "Michael Johnson", credits := 3,
           enrolled_students := [aliceBase], created_at := 1, updated_at := 1 } =
         cloudRead.code ∧
       CourseRead.credits
         { id := 20, name := "Database", code := "COMS4135",
           professor := "Michael Johnson", credits := 3,
           enrolled_students := [aliceBase], created_at := 1, updated_at := 1 } =
         cloudRead.credits ∧
       CourseRead.created_at
         { id := 20, name := "Database", code := "COMS4135",
           professor := "Michael Johnson", credits := 3,
           enrolled_students := [aliceBase], created_at := 1, updated_at := 1 } =
         cloudRead.created_at) :=
  ⟨claim10_update_cannot_touch_omitted_fields.1 10 updName [(10, aliceRead)]
     aliceRead
     { id := 10, name := "Alicia", student_id := "as1", email := "a@x.edu",
       created_at := 1, updated_at := 1 }
     [(10, { id := 10, name := "Alicia", student_id := "as1", email := "a@x.edu",
             created_at := 1, updated_at := 1 })]
     rfl rfl,
   claim10_update_cannot_touch_omitted_fields.2 20 cupdName [(20, cloudRead)]
     cloudRead
     { id := 20, name := "Database", code := "COMS4135",
       professor := "Michael Johnson", credits := 3,
       enrolled_students := [aliceBase], created_at := 1, updated_at := 1 }
     [(20, { id := 20, name := "Database", code := "COMS4135",
             professor := "Michael Johnson", credits := 3,
             enrolled_students := [aliceBase], created_at := 1, updated_at := 1 })]
     rfl rfl⟩
